/-
  Verification of the query-dispatch and parameter-composition layer of the
  `wolfram` client library (`wolfram/client.py`).

  The embedding models, directly from the source:
  * `ClientBase.BASE_URL` and `ClientBase.API_VERSION` (the version table);
  * `Client.query` (blocking dispatch, lines 42-64) and `AsyncClient.query`
    (non-blocking dispatch, lines 234-258) up to the point where the HTTP GET
    would be issued: the functions return the request URL that would be
    fetched, or the error raised before any network access;
  * the facade methods `full_results_query`, `conversational_query` and
    `conversational_followup_query`;
  * Python `urllib.parse.urlencode` with its default `quote_plus` escaping,
    Python `str()` of a parameter value, and Python `str.join`.

  The endpoint-descriptor module (`wolfram/api.py`) and the result models
  (`wolfram/models.py`) are external collaborators that are not part of the
  dispatch layer; where a definition stands in for them it is modelled from
  the spec and says so in its doc comment.

  Python dynamic values are modelled only as far as the dispatch layer
  inspects them: a parameter value is a string or `None`, and the object
  passed as the `api` argument is classified by how `issubclass(-, API)` and
  `isinstance(-, API)` behave on it.
-/
import Mathlib

namespace Wolfram

/-- A Python parameter value as the dispatch layer sees it: a string or the
`None` sentinel (other value types are never produced by the modelled call
paths). -/
inductive Value where
  | vStr (s : String)
  | vNone
deriving DecidableEq, Repr

/-- Python `str()` applied to a parameter value, as `urlencode` does before
escaping: a string is itself, `None` prints as `"None"`. -/
def pyStr : Value → String
  | .vStr s => s
  | .vNone => "None"

/-- The hexadecimal digit characters used by percent-escapes (uppercase, as
CPython's `quote` produces). -/
def hexDigit (n : Nat) : Char :=
  "0123456789ABCDEF".toList.getD n '0'

/-- Two-digit uppercase hex of a byte, as in a `%XX` escape. -/
def hexByte (n : Nat) : String :=
  String.singleton (hexDigit (n / 16)) ++ String.singleton (hexDigit (n % 16))

/-- UTF-8 bytes of a code point, used by CPython `quote` for non-safe
characters. -/
def utf8Bytes (n : Nat) : List Nat :=
  if n < 0x80 then [n]
  else if n < 0x800 then [0xC0 + n / 0x40, 0x80 + n % 0x40]
  else if n < 0x10000 then
    [0xE0 + n / 0x1000, 0x80 + n / 0x40 % 0x40, 0x80 + n % 0x40]
  else
    [0xF0 + n / 0x40000, 0x80 + n / 0x1000 % 0x40, 0x80 + n / 0x40 % 0x40,
      0x80 + n % 0x40]

/-- CPython's `ALWAYS_SAFE` set for `quote`: ASCII letters, digits and
`_ . - ~` are emitted unescaped. -/
def alwaysSafe (c : Char) : Bool :=
  c.isAlpha || c.isDigit || c = '_' || c = '.' || c = '-' || c = '~'

/-- One character under `quote_plus` with empty `safe` (the `urlencode`
default): safe characters pass through, a space becomes `+`, anything else
becomes the `%XX` escapes of its UTF-8 bytes. -/
def quotePlusChar (c : Char) : String :=
  if alwaysSafe c then String.singleton c
  else if c = ' ' then "+"
  else String.join ((utf8Bytes c.toNat).map fun b => "%" ++ hexByte b)

/-- Python `urllib.parse.quote_plus` with empty `safe`, applied by
`urlencode` to every key and value. -/
def quotePlus (s : String) : String :=
  String.join (s.toList.map quotePlusChar)

/-- One `key=value` piece of the query string. -/
def encodePair (p : String × String) : String :=
  quotePlus p.1 ++ "=" ++ quotePlus p.2

/-- Python `"&".join`: join the encoded pieces with `&`. -/
def joinAmp : List String → String
  | [] => ""
  | [x] => x
  | x :: y :: rest => x ++ "&" ++ joinAmp (y :: rest)

/-- Python `urllib.parse.urlencode` on a sequence of already-stringified
pairs (the source stringifies values via `str()`, modelled by `pyStr`). -/
def urlencode (l : List (String × String)) : String :=
  joinAmp (l.map encodePair)

/-- Modelled from the spec: an endpoint descriptor (`wolfram/api.py` is not
part of the dispatch layer's source). The spec's collaborator contract:
`{version, path, fixed_params}` plus a blocking and a non-blocking result
formatter; the formatters consume the raw response body. -/
structure APIDescriptor where
  VERSION : Nat
  ENDPOINT : String
  PARAMS : List (String × Value)
  format_results : String → Value
  async_format_results : String → Value

/-- Modelled from the spec: the object passed as the `api` argument,
classified by how CPython's `issubclass(-, API)` and `isinstance(-, API)`
behave on it. `apiSubclass d` is a class object subclassing `API` carrying
descriptor data `d` (the form the facade methods pass); `apiInstance d` is
an instance of such a class; `nonApiClass` is a class unrelated to `API`;
`otherObject` is a non-class object that is not an `API` instance. -/
inductive PyObject where
  | apiSubclass (d : APIDescriptor)
  | apiInstance (d : APIDescriptor)
  | nonApiClass
  | otherObject

/-- The Python exceptions the dispatch layer can raise before the network
call. `nameError` models the `NameError` produced when an f-string
references an undefined name. -/
inductive QueryError where
  | typeError (msg : String)
  | nameError (missing : String)
  | parameterConflict (msg : String)
deriving DecidableEq, Repr

/-- `ClientBase.BASE_URL`. -/
def BASE_URL : String := "https://api.wolframalpha.com/"

/-- `ClientBase.API_VERSION`: the fixed version table. -/
def API_VERSION : List (Nat × String) := [(1, "v1/"), (2, "v2/")]

/-- The message of the `ParameterConflict` raised on a key collision. -/
def conflictMsg : String := "cannot pass a parameter specified by `API` object"

/-- `True` when the list of keys has no duplicate; `dict(appid=..., **F,
**P)` raises `TypeError` exactly when the combined keyword names collide. -/
def dupFreeKeys : List String → Bool
  | [] => true
  | k :: ks => !ks.contains k && dupFreeKeys ks

/-- All keyword names passed to `dict(appid=self.appid, **api.PARAMS,
**params)`, in order. -/
def allKeys (F P : List (String × Value)) : List String :=
  "appid" :: (F.map Prod.fst ++ P.map Prod.fst)

/-- `dict(appid=self.appid, **api.PARAMS, **params)` from lines 55 / 247:
on any keyword collision CPython raises `TypeError` (caught by the source
and re-raised as `ParameterConflict`); otherwise the dict holds the
credential first, then the fixed parameters, then the caller parameters, in
insertion order. -/
def mergeParams (appid : String) (F P : List (String × Value)) :
    Except Unit (List (String × Value)) :=
  if dupFreeKeys (allKeys F P) then
    .ok (("appid", Value.vStr appid) :: (F ++ P))
  else
    .error ()

/-- `issubclass(api, API)` as `Client.query` line 43 runs it: true on an
`API` subclass, false on an unrelated class, and a `TypeError` of its own
(`issubclass() arg 1 must be a class`) on a non-class argument. -/
def syncTypeCheck : PyObject → Except QueryError APIDescriptor
  | .apiSubclass d => .ok d
  | .apiInstance _ => .error (.typeError "issubclass() arg 1 must be a class")
  | .nonApiClass => .error (.typeError "api must be `API` type")
  | .otherObject => .error (.typeError "issubclass() arg 1 must be a class")

/-- `isinstance(api, API)` as `AsyncClient.query` line 235 runs it: true
only on an instance of an `API` subclass; in particular false on the class
objects themselves. -/
def asyncTypeCheck : PyObject → Except QueryError APIDescriptor
  | .apiSubclass _ => .error (.typeError "api must be `API` type")
  | .apiInstance d => .ok d
  | .nonApiClass => .error (.typeError "api must be `API` type")
  | .otherObject => .error (.typeError "api must be `API` type")

/-- Shared body of `Client.query` / `AsyncClient.query` after the type
check (lines 47-62 = 239-254, which are textually identical): the version
lookup — whose failure branch evaluates the f-string
`f"Unknown API version '{request.version}'."` and therefore raises
`NameError` for the undefined name `request`, not the intended
`ValueError` — then the merge and the URL construction. Returns the URL the
HTTP GET would be issued against. -/
def buildRequestURL (appid : String) (d : APIDescriptor)
    (url : Option String) (P : List (String × Value)) :
    Except QueryError String :=
  match API_VERSION.lookup d.VERSION with
  | none => .error (.nameError "request")
  | some v =>
    match mergeParams appid d.PARAMS P with
    | .error _ => .error (.parameterConflict conflictMsg)
    | .ok M =>
      let qs := "?" ++ urlencode (M.map fun p => (p.1, pyStr p.2))
      .ok ((url.getD BASE_URL) ++ v ++ d.ENDPOINT ++ qs)

/-- `Client.query` (lines 42-63) up to the HTTP GET: the type check via
`issubclass`, then `buildRequestURL`. The `.ok` payload is the exact URL
passed to `requests.get`; an `.error` means the exception is raised before
any network access. -/
def clientRequestURL (appid : String) (api : PyObject)
    (url : Option String) (P : List (String × Value)) :
    Except QueryError String :=
  match syncTypeCheck api with
  | .error e => .error e
  | .ok d => buildRequestURL appid d url P

/-- `AsyncClient.query` (lines 234-256) up to the HTTP GET: identical to
the blocking variant except that the type check uses `isinstance`. -/
def asyncClientRequestURL (appid : String) (api : PyObject)
    (url : Option String) (P : List (String × Value)) :
    Except QueryError String :=
  match asyncTypeCheck api with
  | .error e => .error e
  | .ok d => buildRequestURL appid d url P

/-- `Client.query` in full (lines 42-64): build the URL, perform the GET
(the network is modelled as a function `net` from URL to raw response
body), and pass the response to the descriptor's blocking formatter. -/
def clientQuery (appid : String) (api : PyObject) (url : Option String)
    (P : List (String × Value)) (net : String → String) :
    Except QueryError Value :=
  match syncTypeCheck api with
  | .error e => .error e
  | .ok d =>
    match buildRequestURL appid d url P with
    | .error e => .error e
    | .ok u => .ok (d.format_results (net u))

/-- `AsyncClient.query` in full (lines 234-258): as `clientQuery` but with
the `isinstance` type check and the awaitable formatter. -/
def asyncClientQuery (appid : String) (api : PyObject) (url : Option String)
    (P : List (String × Value)) (net : String → String) :
    Except QueryError Value :=
  match asyncTypeCheck api with
  | .error e => .error e
  | .ok d =>
    match buildRequestURL appid d url P with
    | .error e => .error e
    | .ok u => .ok (d.async_format_results (net u))

/-- A formatter stand-in for descriptors used only for URL-level claims. -/
def idFormatter : String → Value := fun b => .vStr b

/-- Modelled from the spec: the simple-image endpoint descriptor of
`wolfram/api.py` (version 1, path `"simple"`, no fixed parameters — the
values the spec's own example states). -/
def SimpleAPI : APIDescriptor :=
  { VERSION := 1, ENDPOINT := "simple", PARAMS := []
    format_results := idFormatter, async_format_results := idFormatter }

/-- Modelled from the spec: the full-results endpoint descriptor of
`wolfram/api.py`; version 2 per the spec's `v{1,2}` wire format, path and
fixed parameters representative (no claim depends on them beyond `format`
not being a fixed key). -/
def FullResultsAPI : APIDescriptor :=
  { VERSION := 2, ENDPOINT := "query", PARAMS := []
    format_results := idFormatter, async_format_results := idFormatter }

/-- Modelled from the spec: the conversational endpoint descriptor of
`wolfram/api.py`; version 1 and path `"conversation.jsp"` as the spec's
continuation-URL example implies. -/
def ConversationalAPI : APIDescriptor :=
  { VERSION := 1, ENDPOINT := "conversation.jsp", PARAMS := []
    format_results := idFormatter, async_format_results := idFormatter }

/-- The `format` argument of `full_results_query` as the source's
`params.pop("format", None)` sees it: absent (or explicitly `None`), a
plain string, or a sequence of strings. -/
inductive FormatArg where
  | absent
  | ofStr (s : String)
  | ofList (l : List String)

/-- Python `",".join(x)`: over a list it interleaves commas; over a plain
string it iterates the characters, so each character becomes an element. -/
def commaJoin : FormatArg → Option String
  | .absent => none
  | .ofStr s => some (String.intercalate "," (s.toList.map String.singleton))
  | .ofList l => some (String.intercalate "," l)

/-- `Client.full_results_query` (lines 135-140) up to the HTTP GET: pop
`format`; when present, dispatch with `format=",".join(format)` inserted
after `input`; when absent, dispatch without a `format` key. `P` is the
remaining keyword parameters after the pop. -/
def full_results_query (appid input : String) (format : FormatArg)
    (P : List (String × Value)) : Except QueryError String :=
  match commaJoin format with
  | none =>
    clientRequestURL appid (.apiSubclass FullResultsAPI) none
      (("input", Value.vStr input) :: P)
  | some f =>
    clientRequestURL appid (.apiSubclass FullResultsAPI) none
      (("input", Value.vStr input) :: ("format", Value.vStr f) :: P)

/-- `Client.conversational_query` (lines 167-168) up to the HTTP GET: the
`url` keyword, when present among the parameters, binds `Client.query`'s
`url` parameter; everything else is forwarded after `i`. -/
def conversational_query (appid i : String) (url : Option String)
    (P : List (String × Value)) : Except QueryError String :=
  clientRequestURL appid (.apiSubclass ConversationalAPI) url
    (("i", Value.vStr i) :: P)

/-- Modelled from the spec: a prior conversational result
(`wolfram/models.py` is not part of the dispatch layer's source) exposing
the provider-supplied continuation URL and continuation parameters. -/
structure ConversationalResultModel where
  followup_url : String
  followup_params : List (String × Value)

/-- `Client.conversational_followup_query` (lines 182-183) up to the HTTP
GET: forwards `i`, binds the result's continuation URL to the `url`
keyword, and splices the continuation parameters before the new caller
parameters. -/
def conversational_followup_query (appid i : String)
    (result : ConversationalResultModel) (P : List (String × Value)) :
    Except QueryError String :=
  conversational_query appid i (some result.followup_url)
    (result.followup_params ++ P)

/-- `needle` occurs contiguously inside `hay`. -/
def SubstrOf (needle hay : String) : Prop :=
  ∃ p q, hay = p ++ needle ++ q

/-! ### Helper lemmas -/

theorem dupFreeKeys_iff (l : List String) : dupFreeKeys l = true ↔ l.Nodup := by
  induction l with
  | nil => simp [dupFreeKeys]
  | cons k ks ih => simp [dupFreeKeys, List.nodup_cons, ih, List.contains, and_comm]

theorem substrOf_extend (n p s q : String) (h : SubstrOf n s) :
    SubstrOf n (p ++ s ++ q) := by
  obtain ⟨a, b, hab⟩ := h
  exact ⟨p ++ a, b ++ q, by rw [hab]; simp [String.append_assoc]⟩

theorem substrOf_joinAmp (x : String) (l : List String) (h : x ∈ l) :
    SubstrOf x (joinAmp l) := by
  induction l with
  | nil => cases h
  | cons y t ih =>
    cases t with
    | nil =>
      rcases List.mem_singleton.mp h with rfl
      exact ⟨"", "", by simp [joinAmp]⟩
    | cons z r =>
      rcases List.mem_cons.mp h with rfl | hmem
      · exact ⟨"", "&" ++ joinAmp (z :: r), by
          simp [joinAmp, String.append_assoc]⟩
      · obtain ⟨a, b, hab⟩ := ih hmem
        exact ⟨y ++ "&" ++ a, b, by
          simp [joinAmp, hab, String.append_assoc]⟩

theorem mergeParams_conflict (appid : String) (F P : List (String × Value))
    (k : String) (hP : k ∈ P.map Prod.fst)
    (hF : k ∈ F.map Prod.fst ∨ k = "appid") :
    mergeParams appid F P = .error () := by
  have hnd : ¬ (allKeys F P).Nodup := by
    intro hnd
    rcases hF with hF | rfl
    · exact (List.nodup_append.mp (List.nodup_cons.mp hnd).2).2.2 hF hP
    · exact (List.nodup_cons.mp hnd).1 (List.mem_append.mpr (Or.inr hP))
  have hdf : dupFreeKeys (allKeys F P) = false := by
    rcases Bool.eq_false_or_eq_true (dupFreeKeys (allKeys F P)) with h | h
    · exact absurd ((dupFreeKeys_iff _).mp h) hnd
    · exact h
  simp [mergeParams, hdf]

theorem buildRequestURL_conflict (appid : String) (d : APIDescriptor)
    (u : Option String) (P : List (String × Value)) (k : String)
    (hv : d.VERSION = 1 ∨ d.VERSION = 2)
    (hP : k ∈ P.map Prod.fst)
    (hF : k ∈ d.PARAMS.map Prod.fst ∨ k = "appid") :
    buildRequestURL appid d u P = .error (.parameterConflict conflictMsg) := by
  have hm := mergeParams_conflict appid d.PARAMS P k hP hF
  rcases hv with hv | hv <;>
    simp [buildRequestURL, hv, API_VERSION, List.lookup, hm]

/-! ### Claim theorems -/

/-- C1: whenever the caller parameters share a key with the descriptor's
fixed parameters (or use the credential key `appid` itself), both
`Client.query` and `AsyncClient.query` raise `ParameterConflict`, and the
outcome is independent of the network, i.e. the HTTP GET is never reached.
(`hv` restricts to well-formed descriptors — an unknown version would fail
earlier, see C5 — and each variant is applied to the descriptor form that
passes its own type check, see C4.) -/
theorem C1_conflict_no_request (appid : String) (d : APIDescriptor)
    (u : Option String) (P : List (String × Value)) (k : String)
    (hv : d.VERSION = 1 ∨ d.VERSION = 2)
    (hP : k ∈ P.map Prod.fst)
    (hF : k ∈ d.PARAMS.map Prod.fst ∨ k = "appid") :
    clientRequestURL appid (.apiSubclass d) u P
        = .error (.parameterConflict conflictMsg)
      ∧ asyncClientRequestURL appid (.apiInstance d) u P
        = .error (.parameterConflict conflictMsg)
      ∧ (∀ net, clientQuery appid (.apiSubclass d) u P net
          = .error (.parameterConflict conflictMsg))
      ∧ (∀ net, asyncClientQuery appid (.apiInstance d) u P net
          = .error (.parameterConflict conflictMsg)) := by
  have hb := buildRequestURL_conflict appid d u P k hv hP hF
  refine ⟨?_, ?_, fun net => ?_, fun net => ?_⟩ <;>
    simp [clientRequestURL, asyncClientRequestURL, clientQuery,
      asyncClientQuery, syncTypeCheck, asyncTypeCheck, hb]

/-- Witness for C1 at a concrete conflicting input. -/
theorem C1_conflict_no_request_witness :
    clientRequestURL "DEMO"
        (.apiSubclass ⟨1, "simple", [("units", Value.vStr "metric")],
          idFormatter, idFormatter⟩)
        none [("units", Value.vStr "imperial")]
        = .error (.parameterConflict conflictMsg)
      ∧ asyncClientRequestURL "DEMO"
        (.apiInstance ⟨1, "simple", [("units", Value.vStr "metric")],
          idFormatter, idFormatter⟩)
        none [("units", Value.vStr "imperial")]
        = .error (.parameterConflict conflictMsg)
      ∧ (∀ net, clientQuery "DEMO"
          (.apiSubclass ⟨1, "simple", [("units", Value.vStr "metric")],
            idFormatter, idFormatter⟩)
          none [("units", Value.vStr "imperial")] net
          = .error (.parameterConflict conflictMsg))
      ∧ (∀ net, asyncClientQuery "DEMO"
          (.apiInstance ⟨1, "simple", [("units", Value.vStr "metric")],
            idFormatter, idFormatter⟩)
          none [("units", Value.vStr "imperial")] net
          = .error (.parameterConflict conflictMsg)) :=
  C1_conflict_no_request "DEMO"
    ⟨1, "simple", [("units", Value.vStr "metric")], idFormatter, idFormatter⟩
    none [("units", Value.vStr "imperial")] "units"
    (Or.inl rfl) (by simp) (Or.inl (by simp))

/-- C9: for disjoint caller and fixed parameters, neither containing the
credential key, the merge succeeds and the merged mapping has exactly
`|P| + |F| + 1` entries with no duplicate parameter name. -/
theorem C9_merge_counts (appid : String) (F P : List (String × Value))
    (hF : (F.map Prod.fst).Nodup) (hP : (P.map Prod.fst).Nodup)
    (hdisj : (F.map Prod.fst).Disjoint (P.map Prod.fst))
    (haF : "appid" ∉ F.map Prod.fst) (haP : "appid" ∉ P.map Prod.fst) :
    mergeParams appid F P = .ok (("appid", Value.vStr appid) :: (F ++ P))
      ∧ (("appid", Value.vStr appid) :: (F ++ P)).length
          = P.length + F.length + 1
      ∧ ((("appid", Value.vStr appid) :: (F ++ P)).map Prod.fst).Nodup := by
  have hnd : (allKeys F P).Nodup := by
    refine List.nodup_cons.mpr ⟨?_, List.nodup_append.mpr ⟨hF, hP, hdisj⟩⟩
    simp only [List.mem_append]
    tauto
  have hdf : dupFreeKeys (allKeys F P) = true := (dupFreeKeys_iff _).mpr hnd
  refine ⟨by simp [mergeParams, hdf], by simp; omega, ?_⟩
  simpa [allKeys, List.map_append] using hnd

/-- Witness for C9 at a concrete disjoint input. -/
theorem C9_merge_counts_witness :
    mergeParams "DEMO" [("units", Value.vStr "metric")] [("i", Value.vStr "x")]
        = .ok (("appid", Value.vStr "DEMO")
            :: ([("units", Value.vStr "metric")] ++ [("i", Value.vStr "x")]))
      ∧ (("appid", Value.vStr "DEMO")
            :: ([("units", Value.vStr "metric")] ++ [("i", Value.vStr "x")])).length
          = [("i", Value.vStr "x")].length
              + [("units", Value.vStr "metric")].length + 1
      ∧ ((("appid", Value.vStr "DEMO")
            :: ([("units", Value.vStr "metric")] ++ [("i", Value.vStr "x")])).map
            Prod.fst).Nodup :=
  C9_merge_counts "DEMO" [("units", Value.vStr "metric")] [("i", Value.vStr "x")]
    (by simp) (by simp) (by simp) (by simp) (by simp)

theorem substrOf_append_left (n a t : String) (h : SubstrOf n t) :
    SubstrOf n (a ++ t) := by
  obtain ⟨p, q, hpq⟩ := h
  exact ⟨a ++ p, q, by rw [hpq]; simp [String.append_assoc]⟩

theorem mergeParams_ok_eq (appid : String) (F P M : List (String × Value))
    (h : mergeParams appid F P = .ok M) :
    M = ("appid", Value.vStr appid) :: (F ++ P) := by
  unfold mergeParams at h
  split at h
  · simpa using h.symm
  · simp at h

theorem buildRequestURL_ok (appid : String) (d : APIDescriptor)
    (u : Option String) (P : List (String × Value)) (s : String)
    (hok : buildRequestURL appid d u P = .ok s) :
    ∃ v, API_VERSION.lookup d.VERSION = some v
      ∧ s = (u.getD BASE_URL) ++ v ++ d.ENDPOINT
          ++ ("?" ++ urlencode
              ((("appid", Value.vStr appid) :: (d.PARAMS ++ P)).map
                fun p => (p.1, pyStr p.2))) := by
  unfold buildRequestURL at hok
  cases hl : API_VERSION.lookup d.VERSION with
  | none => rw [hl] at hok; exact absurd hok (by simp)
  | some v =>
    rw [hl] at hok
    cases hmm : mergeParams appid d.PARAMS P with
    | error e => rw [hmm] at hok; exact absurd hok (by simp)
    | ok M =>
      rw [hmm] at hok
      simp only [Except.ok.injEq] at hok
      refine ⟨v, rfl, ?_⟩
      rw [← hok, mergeParams_ok_eq appid d.PARAMS P M hmm]

/-- C3 counterexample: a caller parameter with the `None` sentinel is not
dropped — with `units=None` among the parameters the built URL ends in
`units=None`, so the query string does contain the key `units`. -/
theorem C3_counterexample :
    clientRequestURL "DEMO" (.apiSubclass SimpleAPI) none
        [("i", Value.vStr "2+2"), ("units", Value.vNone)]
      = .ok "https://api.wolframalpha.com/v1/simple?appid=DEMO&i=2%2B2&units=None"
    ∧ SubstrOf "units"
        "https://api.wolframalpha.com/v1/simple?appid=DEMO&i=2%2B2&units=None" :=
  ⟨rfl, "https://api.wolframalpha.com/v1/simple?appid=DEMO&i=2%2B2&", "=None",
    rfl⟩

/-- C3 (amended): `None`-valued caller parameters are kept, not dropped —
whenever dispatch reaches the network, every parameter whose value is the
`None` sentinel appears in the built URL serialized as `<key>=None`. -/
theorem C3_none_serialized (appid k : String) (d : APIDescriptor)
    (u : Option String) (P : List (String × Value)) (s : String)
    (hmem : (k, Value.vNone) ∈ P)
    (hok : clientRequestURL appid (.apiSubclass d) u P = .ok s) :
    SubstrOf (quotePlus k ++ "=None") s := by
  have hok' : buildRequestURL appid d u P = .ok s := hok
  obtain ⟨v, hv, hs⟩ := buildRequestURL_ok appid d u P s hok'
  have h1 : (k, Value.vNone)
      ∈ ("appid", Value.vStr appid) :: (d.PARAMS ++ P) :=
    List.mem_cons_of_mem _ (List.mem_append_right _ hmem)
  have h2 : (k, "None")
      ∈ (("appid", Value.vStr appid) :: (d.PARAMS ++ P)).map
          (fun p => (p.1, pyStr p.2)) :=
    List.mem_map.mpr ⟨(k, Value.vNone), h1, rfl⟩
  have h3 := substrOf_joinAmp (encodePair (k, "None")) _
    (List.mem_map.mpr ⟨(k, "None"), h2, rfl⟩)
  have hchunk : encodePair (k, "None") = quotePlus k ++ "=None" := by
    show quotePlus k ++ "=" ++ quotePlus "None" = _
    rw [String.append_assoc]
    rfl
  rw [hchunk] at h3
  rw [hs]
  exact substrOf_append_left _ _ _ (substrOf_append_left _ _ _ h3)

/-- Witness for C3's amended theorem at a concrete input. -/
theorem C3_none_serialized_witness :
    SubstrOf (quotePlus "units" ++ "=None")
      "https://api.wolframalpha.com/v1/simple?appid=DEMO&i=2%2B2&units=None" :=
  C3_none_serialized "DEMO" "units" SimpleAPI none
    [("i", Value.vStr "2+2"), ("units", Value.vNone)]
    "https://api.wolframalpha.com/v1/simple?appid=DEMO&i=2%2B2&units=None"
    (by decide) rfl

/-- C6: with the spec's descriptor (version 1, path `simple`, no fixed
parameters) and parameters `{i: "2+2"}`, the built URL is
`<base_url><api_version_path><endpoint_path>?<query_string>` with the
credential first and every key and value percent-encoded (`2+2` becomes
`2%2B2`); with credential `DEMO` the URL is the exact literal. -/
theorem C6_url_shape :
    (∀ appid : String,
      clientRequestURL appid (.apiSubclass SimpleAPI) none
          [("i", Value.vStr "2+2")]
        = .ok (BASE_URL ++ "v1/" ++ "simple"
            ++ ("?" ++ ("appid" ++ "=" ++ quotePlus appid ++ "&"
                ++ ("i" ++ "=" ++ "2%2B2")))))
    ∧ clientRequestURL "DEMO" (.apiSubclass SimpleAPI) none
        [("i", Value.vStr "2+2")]
      = .ok "https://api.wolframalpha.com/v1/simple?appid=DEMO&i=2%2B2" :=
  ⟨fun _ => rfl, rfl⟩

/-- C7: a `format` supplied as a sequence of strings is comma-joined into
a single parameter inserted once after `input`; with
`format=["plaintext","image"]` the query string carries
`format=plaintext%2Cimage` as one parameter. -/
theorem C7_format_list_joined :
    (∀ (appid input : String) (l : List String) (P : List (String × Value)),
      full_results_query appid input (.ofList l) P
        = clientRequestURL appid (.apiSubclass FullResultsAPI) none
            (("input", Value.vStr input)
              :: ("format", Value.vStr (String.intercalate "," l)) :: P))
    ∧ full_results_query "DEMO" "x" (.ofList ["plaintext", "image"]) []
      = .ok "https://api.wolframalpha.com/v2/query?appid=DEMO&input=x&format=plaintext%2Cimage" :=
  ⟨fun _ _ _ _ => rfl, rfl⟩

/-- C10: a `format` supplied as a plain string is fed to `",".join`, which
iterates the string's characters, so the dispatched value interleaves
commas between the characters: `"plaintext"` becomes
`"p,l,a,i,n,t,e,x,t"` (percent-encoded `p%2Cl%2C...` in the URL). -/
theorem C10_format_string_split :
    (∀ (appid input s : String) (P : List (String × Value)),
      full_results_query appid input (.ofStr s) P
        = clientRequestURL appid (.apiSubclass FullResultsAPI) none
            (("input", Value.vStr input)
              :: ("format",
                  Value.vStr (String.intercalate ","
                    (s.toList.map String.singleton))) :: P))
    ∧ full_results_query "DEMO" "x" (.ofStr "plaintext") []
      = .ok "https://api.wolframalpha.com/v2/query?appid=DEMO&input=x&format=p%2Cl%2Ca%2Ci%2Cn%2Ct%2Ce%2Cx%2Ct" :=
  ⟨fun _ _ _ _ => rfl, rfl⟩

/-- C2 counterexample: with a prior result exposing
`continuation_url="https://x/v1/conversation.jsp"` and continuation
parameters `{s: "1"}`, the follow-up request URL is the continuation URL
with the version path and endpoint path appended again — not the exact
continuation URL with the query string attached, as the claim states. -/
theorem C2_counterexample :
    conversational_followup_query "DEMO" "q"
        ⟨"https://x/v1/conversation.jsp", [("s", Value.vStr "1")]⟩ []
      = .ok "https://x/v1/conversation.jspv1/conversation.jsp?appid=DEMO&i=q&s=1"
    ∧ "https://x/v1/conversation.jspv1/conversation.jsp?appid=DEMO&i=q&s=1"
      ≠ "https://x/v1/conversation.jsp?appid=DEMO&i=q&s=1" :=
  ⟨rfl, by decide⟩

/-- C2 (amended): `conversational_followup_query` substitutes the prior
result's continuation URL for the default origin as the base URL — the
request URL is `<continuation_url>v1/conversation.jsp?<query>`, with the
continuation parameters merged into the query string after `i` and before
any new caller parameters; the default origin is not used. -/
theorem C2_continuation_base (appid i fu : String)
    (fp P : List (String × Value)) (s : String)
    (hok : conversational_followup_query appid i ⟨fu, fp⟩ P = .ok s) :
    s = fu ++ "v1/" ++ "conversation.jsp"
        ++ ("?" ++ urlencode
            ((("appid", Value.vStr appid)
                :: (("i", Value.vStr i) :: (fp ++ P))).map
              fun p => (p.1, pyStr p.2))) := by
  have hok' : buildRequestURL appid ConversationalAPI (some fu)
      (("i", Value.vStr i) :: (fp ++ P)) = .ok s := hok
  obtain ⟨v, hv, hs⟩ := buildRequestURL_ok _ _ _ _ _ hok'
  have hv' : v = "v1/" := by
    simpa [ConversationalAPI, API_VERSION, List.lookup] using hv.symm
  subst hv'
  rw [hs]
  rfl

/-- Witness for C2's amended theorem at the counterexample's input. -/
theorem C2_continuation_base_witness :
    "https://x/v1/conversation.jspv1/conversation.jsp?appid=DEMO&i=q&s=1"
      = "https://x/v1/conversation.jsp" ++ "v1/" ++ "conversation.jsp"
        ++ ("?" ++ urlencode
            ((("appid", Value.vStr "DEMO")
                :: (("i", Value.vStr "q")
                  :: ([("s", Value.vStr "1")] ++ ([] : List (String × Value))))).map
              fun p => (p.1, pyStr p.2))) :=
  C2_continuation_base "DEMO" "q" "https://x/v1/conversation.jsp"
    [("s", Value.vStr "1")] []
    "https://x/v1/conversation.jspv1/conversation.jsp?appid=DEMO&i=q&s=1" rfl

/-- C4 (code bug): both variants reject unrecognized objects with a
`TypeError`-class error before any network access, but the non-blocking
variant's `isinstance(api, API)` check is false on the very class
descriptors every facade method passes, so a recognized descriptor also
raises `TypeError` there while the blocking variant's `issubclass` check
accepts it and dispatch proceeds. -/
theorem C4_async_rejects_class_descriptor :
    clientRequestURL "DEMO" (.apiSubclass FullResultsAPI) none
        [("input", Value.vStr "x")]
      = .ok "https://api.wolframalpha.com/v2/query?appid=DEMO&input=x"
    ∧ asyncClientRequestURL "DEMO" (.apiSubclass FullResultsAPI) none
        [("input", Value.vStr "x")]
      = .error (.typeError "api must be `API` type")
    ∧ clientRequestURL "DEMO" .otherObject none []
      = .error (.typeError "issubclass() arg 1 must be a class")
    ∧ asyncClientRequestURL "DEMO" .otherObject none []
      = .error (.typeError "api must be `API` type") :=
  ⟨rfl, rfl, rfl, rfl⟩

/-- C5 (code bug): a descriptor whose version is outside the fixed table
does fail fatally before the URL is built, but the raised error is the
`NameError` from the f-string's reference to the undefined name `request`
(`raise ValueError(f"Unknown API version '{request.version}'.")`), not an
error naming the unknown version. -/
theorem C5_unknown_version_name_error :
    clientRequestURL "DEMO"
        (.apiSubclass ⟨3, "simple", [], idFormatter, idFormatter⟩) none []
      = .error (.nameError "request")
    ∧ asyncClientRequestURL "DEMO"
        (.apiInstance ⟨3, "simple", [], idFormatter, idFormatter⟩) none []
      = .error (.nameError "request") :=
  ⟨rfl, rfl⟩

/-- C8: fed the descriptor form that passes its type check, the blocking
and non-blocking variants build the same request URL, and — under the
collaborator contract that a descriptor's blocking and awaitable
formatters agree on equal raw responses — produce equal formatted results
from the same network behavior. -/
theorem C8_sync_async_agree (appid : String) (d : APIDescriptor)
    (u : Option String) (P : List (String × Value)) (net : String → String)
    (hfmt : ∀ b, d.format_results b = d.async_format_results b) :
    clientRequestURL appid (.apiSubclass d) u P
        = asyncClientRequestURL appid (.apiInstance d) u P
      ∧ clientQuery appid (.apiSubclass d) u P net
        = asyncClientQuery appid (.apiInstance d) u P net := by
  constructor
  · rfl
  · show (match buildRequestURL appid d u P with
        | Except.error e => Except.error e
        | Except.ok s => Except.ok (d.format_results (net s)))
        = (match buildRequestURL appid d u P with
        | Except.error e => Except.error e
        | Except.ok s => Except.ok (d.async_format_results (net s)))
    cases buildRequestURL appid d u P with
    | error e => rfl
    | ok s => exact congrArg Except.ok (hfmt (net s))

/-- Witness for C8 at a concrete descriptor whose two formatters agree. -/
theorem C8_sync_async_agree_witness :
    clientRequestURL "DEMO" (.apiSubclass SimpleAPI) none
        [("i", Value.vStr "2+2")]
        = asyncClientRequestURL "DEMO" (.apiInstance SimpleAPI) none
            [("i", Value.vStr "2+2")]
      ∧ clientQuery "DEMO" (.apiSubclass SimpleAPI) none
            [("i", Value.vStr "2+2")] id
        = asyncClientQuery "DEMO" (.apiInstance SimpleAPI) none
            [("i", Value.vStr "2+2")] id :=
  C8_sync_async_agree "DEMO" SimpleAPI none [("i", Value.vStr "2+2")] id
    (fun _ => rfl)

end Wolfram
